import Mathlib

/-!
Shallow embedding of the video-generation orchestrator in `src/index.tsx`:
the batched `generateVideos` loop, its inner polling loop with rate-limit
backoff, the empty-batch check, and the per-item delivery phase
(`displayAndDownloadVideo`).  Remote behaviour is supplied by scripts
(lists of poll events / batch scripts), consumed one element per remote call.
-/

namespace Vid

/-- Does the pattern match at the head of the text? (helper for substring search). -/
def matchHere : List Char → List Char → Bool
  | [], _ => true
  | _ :: _, [] => false
  | p :: ps, c :: cs => p == c && matchHere ps cs

/-- `hasSub pat text`: the pattern occurs somewhere in the text
(the JS `String.prototype.includes`). -/
def hasSub (pat : List Char) : List Char → Bool
  | [] => matchHere pat []
  | c :: cs => matchHere pat (c :: cs) || hasSub pat cs

/-- `strHasPattern s pat`: `s.includes(pat)` on strings. -/
def strHasPattern (s pat : String) : Bool :=
  hasSub pat.toList s.toList

/-- Rate-limit classification from `src/index.tsx` line 85:
the error message includes "429" or "RESOURCE_EXHAUSTED". -/
def isRateLimitMsg (msg : String) : Bool :=
  strHasPattern msg "429" || strHasPattern msg "RESOURCE_EXHAUSTED"

/-- `v.video?.uri` innermost object: the uri field may be absent. -/
structure VideoMeta where
  uri : Option String
deriving DecidableEq

/-- One element of `operation.response.generatedVideos`; its `video` field may be absent. -/
structure GeneratedVideo where
  video : Option VideoMeta
deriving DecidableEq

/-- `operation.response`; the `generatedVideos` field may be absent. -/
structure OperationResponse where
  generatedVideos : Option (List GeneratedVideo)
deriving DecidableEq

/-- The remote operation handle: `done` flag plus optional response payload. -/
structure Operation where
  done : Bool
  response : Option OperationResponse
deriving DecidableEq

/-- `maxPollRetries` constant, `src/index.tsx` line 65. -/
def maxPollRetries : Nat := 5

/-- Base poll delay (20000 ms), `src/index.tsx` line 66. -/
def basePollDelayMs : Nat := 20000

/-- Backoff cap (60000 ms), `src/index.tsx` line 90. -/
def pollDelayCapMs : Nat := 60000

/-- `totalVideosToGenerate`, `src/index.tsx` line 34. -/
def totalVideosToGenerate : Nat := 5

/-- `maxVideosPerRequest`, `src/index.tsx` line 35. -/
def maxVideosPerRequest : Nat := 2

/-- One scripted outcome of `ai.operations.getVideosOperation`:
either a fresh operation handle, or a thrown error with a message. -/
inductive PollEvent where
  | ok (op : Operation)
  | err (msg : String)
deriving DecidableEq

/-- The mutable state of the polling loop (`operation`, `pollRetries`, `pollDelay`). -/
structure PollState where
  op : Operation
  pollRetries : Nat
  pollDelay : Nat
deriving DecidableEq

/-- Result of running the poll loop: the loop exits with a done operation
(carrying the final retry state), throws, or runs out of scripted events
while the operation is still pending. `waits` records every `setTimeout`
delay performed, in order. -/
inductive PollOutcome where
  | finished (s : PollState) (waits : List Nat)
  | threw (msg : String) (waits : List Nat)
  | stalled (waits : List Nat)
deriving DecidableEq

/-- Record one wait period at the front of an outcome's wait list. -/
def addWait (w : Nat) : PollOutcome → PollOutcome
  | .finished s ws => .finished s (w :: ws)
  | .threw m ws => .threw m (w :: ws)
  | .stalled ws => .stalled (w :: ws)

/-- The `while (!operation.done)` polling loop, `src/index.tsx` lines 68-100:
wait `pollDelay`, poll; on success reset retries and delay; on a rate-limit
error within budget increment `pollRetries`, double the delay capped at
60000 and continue; otherwise throw. -/
def pollLoop : List PollEvent → PollState → PollOutcome
  | evs, s =>
    if s.op.done then .finished s []
    else
      match evs with
      | [] => .stalled []
      | PollEvent.ok newOp :: rest =>
          addWait s.pollDelay (pollLoop rest ⟨newOp, 0, basePollDelayMs⟩)
      | PollEvent.err msg :: rest =>
          if isRateLimitMsg msg ∧ s.pollRetries < maxPollRetries then
            addWait s.pollDelay
              (pollLoop rest ⟨s.op, s.pollRetries + 1, min pollDelayCapMs (s.pollDelay * 2)⟩)
          else
            PollOutcome.threw
              ("Polling failed after " ++ toString s.pollRetries ++ " retries: " ++ msg)
              [s.pollDelay]

/-- The empty-batch check of `src/index.tsx` line 102:
`!operation.response?.generatedVideos || operation.response.generatedVideos.length === 0`. -/
def batchEmpty (op : Operation) : Bool :=
  match op.response with
  | none => true
  | some r =>
    match r.generatedVideos with
    | none => true
    | some vs => vs.isEmpty

/-- `operation.response.generatedVideos.map(v => v.video?.uri).filter(Boolean)`,
`src/index.tsx` line 106: keep only present, non-empty uri strings, in order. -/
def extractUris (op : Operation) : List String :=
  match op.response with
  | none => []
  | some r =>
    match r.generatedVideos with
    | none => []
    | some vs =>
      vs.filterMap fun g =>
        match g.video with
        | none => none
        | some m =>
          match m.uri with
          | none => none
          | some u => if u.isEmpty then none else some u

/-- Script for one batch: the operation returned by the submission call and
the scripted sequence of poll events for this batch. -/
structure BatchScript where
  initialOp : Operation
  events : List PollEvent
deriving DecidableEq

/-- Terminal status of a whole run of the batch loop. -/
inductive RunOutcome where
  | ok
  | error (msg : String)
  | exhausted
deriving DecidableEq

/-- Observable result of the batch loop: the terminal status, the accumulated
`allVideoUris` at termination, the `videosInThisBatch` of every issued batch in
order, the uri list contributed by every accepted batch in order, and the
number of polls performed per issued batch. -/
structure RunResult where
  outcome : RunOutcome
  acc : List String
  requests : List Nat
  batchUris : List (List String)
  pollsPerBatch : List Nat
deriving DecidableEq

/-- The `while (videosGenerated < totalVideosToGenerate)` batch loop,
`src/index.tsx` lines 41-110, generalised over the two constants:
size each batch `min(maxPer, total - generated)`, submit, poll to terminal,
throw if the response holds no generatedVideos, otherwise append the usable
uris and advance `videosGenerated` by their count. -/
def generateLoop (total maxPer : Nat) :
    List BatchScript → Nat → Nat → List String → RunResult
  | scripts, generated, batchNumber, acc =>
    if generated < total then
      match scripts with
      | [] => ⟨RunOutcome.exhausted, acc, [], [], []⟩
      | b :: rest =>
        let requested := min maxPer (total - generated)
        match pollLoop b.events ⟨b.initialOp, 0, basePollDelayMs⟩ with
        | PollOutcome.finished s waits =>
          if batchEmpty s.op then
            ⟨RunOutcome.error ("Video generation batch " ++ toString batchNumber
              ++ " failed to produce any videos."), acc, [requested], [], [waits.length]⟩
          else
            let uris := extractUris s.op
            let r := generateLoop total maxPer rest (generated + uris.length)
              (batchNumber + 1) (acc ++ uris)
            ⟨r.outcome, r.acc, requested :: r.requests, uris :: r.batchUris,
              waits.length :: r.pollsPerBatch⟩
        | PollOutcome.threw msg waits =>
          ⟨RunOutcome.error msg, acc, [requested], [], [waits.length]⟩
        | PollOutcome.stalled waits =>
          ⟨RunOutcome.exhausted, acc, [requested], [], [waits.length]⟩
    else ⟨RunOutcome.ok, acc, [], [], []⟩

/-- The batch loop at the source's constants (5 total, 2 per request),
starting from `videosGenerated = 0`, `batchNumber = 1`, empty `allVideoUris`. -/
def runGenerate (scripts : List BatchScript) : RunResult :=
  generateLoop totalVideosToGenerate maxVideosPerRequest scripts 0 1 []

/-- One entry appended to the results section by `displayAndDownloadVideo`:
either a rendered video container or the per-item error note. -/
inductive Rendered where
  | videoItem (index : Nat) (uri : String)
  | errorItem (index : Nat)
deriving DecidableEq

/-- `displayAndDownloadVideo`, `src/index.tsx` lines 136-178: the whole body is
wrapped in try/catch, so each item yields exactly one rendered entry and never
throws; `fetchOk` scripts whether the fetch (and processing) succeeds. -/
def displayAndDownloadVideo (fetchOk : Bool) (uri : String) (index : Nat) : Rendered :=
  if fetchOk then Rendered.videoItem index uri else Rendered.errorItem index

/-- The delivery fan-out `allVideoUris.map((uri, index) => displayAndDownloadVideo(uri, index + 1))`,
`src/index.tsx` lines 116-118, with 1-based indices starting at `start`.
`fetchOks` scripts the per-item fetch outcomes. -/
def deliverAll (start : Nat) : List String → List Bool → List Rendered
  | [], _ => []
  | _ :: _, [] => []
  | u :: us, okFlag :: oks =>
      displayAndDownloadVideo okFlag u start :: deliverAll (start + 1) us oks

/-- Observable result of one click of `generateVideos`. -/
inductive TopResult where
  | alerted
  | completed (run : RunResult) (rendered : List Rendered)
  | failed (run : RunResult) (msg : String)
  | stalled (run : RunResult)
deriving DecidableEq

/-- `generateVideos`, `src/index.tsx` lines 19-126: alert and return on the
empty prompt; otherwise run the batch loop and, on success, deliver every
accumulated uri (each item isolated by its own try/catch). -/
def generateVideos (prompt : String) (scripts : List BatchScript)
    (fetchOks : List Bool) : TopResult :=
  if prompt.isEmpty then TopResult.alerted
  else
    let r := runGenerate scripts
    match r.outcome with
    | RunOutcome.ok => TopResult.completed r (deliverAll 1 r.acc fetchOks)
    | RunOutcome.error m => TopResult.failed r m
    | RunOutcome.exhausted => TopResult.stalled r

/-- Side effects of one click, in order: the empty-prompt path only alerts;
otherwise the results area is cleared, the prompt is enhanced, and each issued
batch contributes one submission followed by its polls. -/
inductive Action where
  | alert
  | clearResults
  | enhanceCall
  | submit (n : Nat)
  | pollCall
deriving DecidableEq

/-- Remote-call/UI trace of the batch loop, reconstructed from the run result:
per issued batch, one submission then its polls. -/
def runActions (r : RunResult) : List Action :=
  ((r.requests.zip r.pollsPerBatch).map fun p =>
    Action.submit p.1 :: List.replicate p.2 Action.pollCall).flatten

/-- Effect trace of one click of `generateVideos`. -/
def generateVideosActions (prompt : String) (scripts : List BatchScript) : List Action :=
  if prompt.isEmpty then [Action.alert]
  else Action.clearResults :: Action.enhanceCall :: runActions (runGenerate scripts)

/-- Did the click end in the success path (delivery reached)? -/
def reportedSuccess : TopResult → Bool
  | TopResult.completed _ _ => true
  | _ => false

/-! Concrete fixtures used to instantiate the theorems. -/

/-- A rate-limited poll error message (contains "429"). -/
def rlMsg : String := "429 rate limit"

/-- A still-running operation. -/
def pendingOp : Operation := ⟨false, none⟩

/-- A generated video carrying a usable uri. -/
def uriVid (u : String) : GeneratedVideo := ⟨some ⟨some u⟩⟩

/-- A done operation whose response lists exactly the given usable uris. -/
def doneOpWith (us : List String) : Operation := ⟨true, some ⟨some (us.map uriVid)⟩⟩

/-- A done operation with one generated video that carries no uri. -/
def noUriOp : Operation := ⟨true, some ⟨some [⟨some ⟨none⟩⟩]⟩⟩

/-- A done operation whose generatedVideos list is present but empty. -/
def emptyDoneOp : Operation := ⟨true, some ⟨some []⟩⟩

/-- An operation that is already done is never polled: the loop exits at once,
performing no waits and keeping the current retry state. -/
lemma pollLoop_done (evs : List PollEvent) (s : PollState) (h : s.op.done = true) :
    pollLoop evs s = PollOutcome.finished s [] := by
  cases evs with
  | nil => simp [pollLoop, h]
  | cons e rest => cases e <;> simp [pollLoop, h]

/-! Unfolding lemmas for the batch loop, one per control path. -/

/-- Once the target is reached, the batch loop stops with success. -/
lemma generateLoop_stop (total maxPer gen bn : Nat) (scripts : List BatchScript)
    (acc : List String) (h : ¬ gen < total) :
    generateLoop total maxPer scripts gen bn acc
      = ⟨RunOutcome.ok, acc, [], [], []⟩ := by
  cases scripts <;> simp [generateLoop, h]

/-- Below target with no scripted batches left, the model reports exhaustion. -/
lemma generateLoop_nil (total maxPer gen bn : Nat) (acc : List String)
    (h : gen < total) :
    generateLoop total maxPer [] gen bn acc
      = ⟨RunOutcome.exhausted, acc, [], [], []⟩ := by
  simp [generateLoop, h]

/-- A batch whose poll loop finishes on an operation with no generatedVideos
aborts the run with the batch-indexed error, leaving the accumulator unchanged. -/
lemma generateLoop_cons_empty (total maxPer gen bn : Nat) (acc : List String)
    (b : BatchScript) (rest : List BatchScript) (s : PollState) (w : List Nat)
    (hlt : gen < total)
    (hp : pollLoop b.events ⟨b.initialOp, 0, basePollDelayMs⟩ = PollOutcome.finished s w)
    (hbe : batchEmpty s.op = true) :
    generateLoop total maxPer (b :: rest) gen bn acc
      = ⟨RunOutcome.error ("Video generation batch " ++ toString bn
          ++ " failed to produce any videos."), acc,
          [min maxPer (total - gen)], [], [w.length]⟩ := by
  simp [generateLoop, hlt, hp, hbe]

/-- A batch whose poll loop finishes on an operation with a non-empty
generatedVideos list is accepted: its usable uris are appended and the loop
continues on the rest of the script. -/
lemma generateLoop_cons_accepted (total maxPer gen bn : Nat) (acc : List String)
    (b : BatchScript) (rest : List BatchScript) (s : PollState) (w : List Nat)
    (hlt : gen < total)
    (hp : pollLoop b.events ⟨b.initialOp, 0, basePollDelayMs⟩ = PollOutcome.finished s w)
    (hbe : batchEmpty s.op = false) :
    generateLoop total maxPer (b :: rest) gen bn acc
      = { outcome := (generateLoop total maxPer rest (gen + (extractUris s.op).length)
            (bn + 1) (acc ++ extractUris s.op)).outcome,
          acc := (generateLoop total maxPer rest (gen + (extractUris s.op).length)
            (bn + 1) (acc ++ extractUris s.op)).acc,
          requests := min maxPer (total - gen)
            :: (generateLoop total maxPer rest (gen + (extractUris s.op).length)
                (bn + 1) (acc ++ extractUris s.op)).requests,
          batchUris := extractUris s.op
            :: (generateLoop total maxPer rest (gen + (extractUris s.op).length)
                (bn + 1) (acc ++ extractUris s.op)).batchUris,
          pollsPerBatch := w.length
            :: (generateLoop total maxPer rest (gen + (extractUris s.op).length)
                (bn + 1) (acc ++ extractUris s.op)).pollsPerBatch } := by
  simp [generateLoop, hlt, hp, hbe]

/-- A batch whose poll loop throws aborts the run with the thrown message. -/
lemma generateLoop_cons_threw (total maxPer gen bn : Nat) (acc : List String)
    (b : BatchScript) (rest : List BatchScript) (m : String) (w : List Nat)
    (hlt : gen < total)
    (hp : pollLoop b.events ⟨b.initialOp, 0, basePollDelayMs⟩ = PollOutcome.threw m w) :
    generateLoop total maxPer (b :: rest) gen bn acc
      = ⟨RunOutcome.error m, acc, [min maxPer (total - gen)], [], [w.length]⟩ := by
  simp [generateLoop, hlt, hp]

/-- A batch whose poll script runs out mid-poll stalls the run. -/
lemma generateLoop_cons_stalled (total maxPer gen bn : Nat) (acc : List String)
    (b : BatchScript) (rest : List BatchScript) (w : List Nat)
    (hlt : gen < total)
    (hp : pollLoop b.events ⟨b.initialOp, 0, basePollDelayMs⟩ = PollOutcome.stalled w) :
    generateLoop total maxPer (b :: rest) gen bn acc
      = ⟨RunOutcome.exhausted, acc, [min maxPer (total - gen)], [], [w.length]⟩ := by
  simp [generateLoop, hlt, hp]

/-! Invariant lemmas for the batch loop. -/

/-- On a successful run the final accumulator is the starting accumulator
followed by every accepted batch's uris in order, and it reaches the target
length (given the loop-counter/accumulator length invariant). -/
lemma generateLoop_ok_spec (total maxPer : Nat) (scripts : List BatchScript) :
    ∀ (gen bn : Nat) (acc : List String),
      gen ≤ acc.length →
      (generateLoop total maxPer scripts gen bn acc).outcome = RunOutcome.ok →
      (generateLoop total maxPer scripts gen bn acc).acc
          = acc ++ (generateLoop total maxPer scripts gen bn acc).batchUris.flatten ∧
      total ≤ (generateLoop total maxPer scripts gen bn acc).acc.length := by
  induction scripts with
  | nil =>
    intro gen bn acc hlen hok
    by_cases hlt : gen < total
    · rw [generateLoop_nil total maxPer gen bn acc hlt] at hok
      exact absurd hok (by simp)
    · rw [generateLoop_stop total maxPer gen bn [] acc hlt]
      refine ⟨by simp, ?_⟩
      simp only []
      omega
  | cons b rest ih =>
    intro gen bn acc hlen hok
    by_cases hlt : gen < total
    · rcases hp : pollLoop b.events ⟨b.initialOp, 0, basePollDelayMs⟩ with ⟨s, w⟩ | ⟨m, w⟩ | ⟨w⟩
      · by_cases hbe : batchEmpty s.op
        · rw [generateLoop_cons_empty total maxPer gen bn acc b rest s w hlt hp hbe] at hok
          exact absurd hok (by simp)
        · rw [generateLoop_cons_accepted total maxPer gen bn acc b rest s w hlt hp
            (by simpa using hbe)] at hok ⊢
          have hlen' : gen + (extractUris s.op).length ≤ (acc ++ extractUris s.op).length := by
            simp
            omega
          have h := ih (gen + (extractUris s.op).length) (bn + 1) (acc ++ extractUris s.op)
            hlen' hok
          refine ⟨?_, ?_⟩
          · simpa [List.append_assoc] using h.1
          · simpa using h.2
      · rw [generateLoop_cons_threw total maxPer gen bn acc b rest m w hlt hp] at hok
        exact absurd hok (by simp)
      · rw [generateLoop_cons_stalled total maxPer gen bn acc b rest w hlt hp] at hok
        exact absurd hok (by simp)
    · rw [generateLoop_stop total maxPer gen bn (b :: rest) acc hlt]
      refine ⟨by simp, ?_⟩
      simp only []
      omega

/-- On an aborted run: the accumulator holds exactly the uris of the batches
accepted before the failure, the failing batch is the last one issued
(one more request than accepted batches), and no scripted batch beyond the
failing one is consumed. -/
lemma generateLoop_error_spec (total maxPer : Nat) (scripts : List BatchScript) :
    ∀ (gen bn : Nat) (acc : List String) (msg : String),
      (generateLoop total maxPer scripts gen bn acc).outcome = RunOutcome.error msg →
      (generateLoop total maxPer scripts gen bn acc).acc
          = acc ++ (generateLoop total maxPer scripts gen bn acc).batchUris.flatten ∧
      (generateLoop total maxPer scripts gen bn acc).requests.length
          = (generateLoop total maxPer scripts gen bn acc).batchUris.length + 1 ∧
      (generateLoop total maxPer scripts gen bn acc).requests.length ≤ scripts.length := by
  induction scripts with
  | nil =>
    intro gen bn acc msg hok
    by_cases hlt : gen < total
    · rw [generateLoop_nil total maxPer gen bn acc hlt] at hok
      exact absurd hok (by simp)
    · rw [generateLoop_stop total maxPer gen bn [] acc hlt] at hok
      exact absurd hok (by simp)
  | cons b rest ih =>
    intro gen bn acc msg hok
    by_cases hlt : gen < total
    · rcases hp : pollLoop b.events ⟨b.initialOp, 0, basePollDelayMs⟩ with ⟨s, w⟩ | ⟨m, w⟩ | ⟨w⟩
      · by_cases hbe : batchEmpty s.op
        · rw [generateLoop_cons_empty total maxPer gen bn acc b rest s w hlt hp hbe]
          simp
        · rw [generateLoop_cons_accepted total maxPer gen bn acc b rest s w hlt hp
            (by simpa using hbe)] at hok ⊢
          have h := ih (gen + (extractUris s.op).length) (bn + 1) (acc ++ extractUris s.op)
            msg hok
          refine ⟨by simpa [List.append_assoc] using h.1, by simpa using h.2.1, ?_⟩
          have := h.2.2
          simp only [List.length_cons]
          omega
      · rw [generateLoop_cons_threw total maxPer gen bn acc b rest m w hlt hp]
        simp
      · rw [generateLoop_cons_stalled total maxPer gen bn acc b rest w hlt hp] at hok
        exact absurd hok (by simp)
    · rw [generateLoop_stop total maxPer gen bn (b :: rest) acc hlt] at hok
      exact absurd hok (by simp)

/-- Every issued batch request is at least 1 and at most `maxPer`
(given `maxPer ≥ 1`, the source's 2). -/
lemma generateLoop_requests_bounds (total maxPer : Nat) (hmax : 1 ≤ maxPer)
    (scripts : List BatchScript) :
    ∀ (gen bn : Nat) (acc : List String),
      ∀ q ∈ (generateLoop total maxPer scripts gen bn acc).requests,
        1 ≤ q ∧ q ≤ maxPer := by
  induction scripts with
  | nil =>
    intro gen bn acc q hq
    by_cases hlt : gen < total
    · rw [generateLoop_nil total maxPer gen bn acc hlt] at hq
      simp at hq
    · rw [generateLoop_stop total maxPer gen bn [] acc hlt] at hq
      simp at hq
  | cons b rest ih =>
    intro gen bn acc q hq
    by_cases hlt : gen < total
    · have hreq : 1 ≤ min maxPer (total - gen) ∧ min maxPer (total - gen) ≤ maxPer := by
        constructor
        · have : 1 ≤ total - gen := by omega
          omega
        · exact min_le_left _ _
      rcases hp : pollLoop b.events ⟨b.initialOp, 0, basePollDelayMs⟩ with ⟨s, w⟩ | ⟨m, w⟩ | ⟨w⟩
      · by_cases hbe : batchEmpty s.op
        · rw [generateLoop_cons_empty total maxPer gen bn acc b rest s w hlt hp hbe] at hq
          simp at hq
          subst hq
          exact hreq
        · rw [generateLoop_cons_accepted total maxPer gen bn acc b rest s w hlt hp
            (by simpa using hbe)] at hq
          simp only [List.mem_cons] at hq
          rcases hq with hq | hq
          · subst hq
            exact hreq
          · exact ih _ _ _ q hq
      · rw [generateLoop_cons_threw total maxPer gen bn acc b rest m w hlt hp] at hq
        simp at hq
        subst hq
        exact hreq
      · rw [generateLoop_cons_stalled total maxPer gen bn acc b rest w hlt hp] at hq
        simp at hq
        subst hq
        exact hreq
    · rw [generateLoop_stop total maxPer gen bn (b :: rest) acc hlt] at hq
      simp at hq

/-- If every accepted batch delivered exactly its requested count and the run
succeeded, the issued requests sum to the remaining need. -/
lemma generateLoop_exact_sum (total maxPer : Nat) (scripts : List BatchScript) :
    ∀ (gen bn : Nat) (acc : List String),
      gen ≤ total →
      (generateLoop total maxPer scripts gen bn acc).batchUris.map List.length
          = (generateLoop total maxPer scripts gen bn acc).requests →
      (generateLoop total maxPer scripts gen bn acc).outcome = RunOutcome.ok →
      (generateLoop total maxPer scripts gen bn acc).requests.sum + gen = total := by
  induction scripts with
  | nil =>
    intro gen bn acc hle hexact hok
    by_cases hlt : gen < total
    · rw [generateLoop_nil total maxPer gen bn acc hlt] at hok
      exact absurd hok (by simp)
    · rw [generateLoop_stop total maxPer gen bn [] acc hlt]
      simp only [List.sum_nil]
      omega
  | cons b rest ih =>
    intro gen bn acc hle hexact hok
    by_cases hlt : gen < total
    · rcases hp : pollLoop b.events ⟨b.initialOp, 0, basePollDelayMs⟩ with ⟨s, w⟩ | ⟨m, w⟩ | ⟨w⟩
      · by_cases hbe : batchEmpty s.op
        · rw [generateLoop_cons_empty total maxPer gen bn acc b rest s w hlt hp hbe] at hok
          exact absurd hok (by simp)
        · rw [generateLoop_cons_accepted total maxPer gen bn acc b rest s w hlt hp
            (by simpa using hbe)] at hexact hok ⊢
          simp only [List.map_cons, List.cons.injEq] at hexact
          have hhead : (extractUris s.op).length = min maxPer (total - gen) := hexact.1
          have htail := hexact.2
          have hle' : gen + (extractUris s.op).length ≤ total := by
            have : min maxPer (total - gen) ≤ total - gen := min_le_right _ _
            omega
          have h := ih (gen + (extractUris s.op).length) (bn + 1) (acc ++ extractUris s.op)
            hle' htail hok
          simp only [List.sum_cons]
          omega
      · rw [generateLoop_cons_threw total maxPer gen bn acc b rest m w hlt hp] at hok
        exact absurd hok (by simp)
      · rw [generateLoop_cons_stalled total maxPer gen bn acc b rest w hlt hp] at hok
        exact absurd hok (by simp)
    · rw [generateLoop_stop total maxPer gen bn (b :: rest) acc hlt]
      simp only [List.sum_nil]
      omega

/-- Every issued batch is sized by the source's formula: the i-th issued
request equals min(maxPer, total − (gen + delivered so far)), where
"delivered so far" is the total count of usable uris contributed by the
batches accepted before it; and each request is issued only while that
delivered count is still short of the target. -/
lemma generateLoop_request_formula (total maxPer : Nat) (scripts : List BatchScript) :
    ∀ (gen bn : Nat) (acc : List String) (i : Nat),
      i < (generateLoop total maxPer scripts gen bn acc).requests.length →
      (generateLoop total maxPer scripts gen bn acc).requests[i]?
          = some (min maxPer (total - (gen
              + ((((generateLoop total maxPer scripts gen bn acc).batchUris.take i).map
                  List.length).sum)))) ∧
      gen + ((((generateLoop total maxPer scripts gen bn acc).batchUris.take i).map
          List.length).sum) < total := by
  induction scripts with
  | nil =>
    intro gen bn acc i hi
    by_cases hlt : gen < total
    · rw [generateLoop_nil total maxPer gen bn acc hlt] at hi
      simp at hi
    · rw [generateLoop_stop total maxPer gen bn [] acc hlt] at hi
      simp at hi
  | cons b rest ih =>
    intro gen bn acc i hi
    by_cases hlt : gen < total
    · rcases hp : pollLoop b.events ⟨b.initialOp, 0, basePollDelayMs⟩ with ⟨s, w⟩ | ⟨m, w⟩ | ⟨w⟩
      · by_cases hbe : batchEmpty s.op
        · rw [generateLoop_cons_empty total maxPer gen bn acc b rest s w hlt hp hbe] at hi ⊢
          simp only [List.length_cons, List.length_nil] at hi
          have h0 : i = 0 := by omega
          subst h0
          refine ⟨by simp, by simpa using hlt⟩
        · rw [generateLoop_cons_accepted total maxPer gen bn acc b rest s w hlt hp
            (by simpa using hbe)] at hi ⊢
          cases i with
          | zero =>
            refine ⟨by simp, by simpa using hlt⟩
          | succ j =>
            have hj : j < (generateLoop total maxPer rest (gen + (extractUris s.op).length)
                (bn + 1) (acc ++ extractUris s.op)).requests.length := by
              simpa using hi
            have h := ih (gen + (extractUris s.op).length) (bn + 1)
              (acc ++ extractUris s.op) j hj
            constructor
            · simp only [List.getElem?_cons_succ, List.take_succ_cons, List.map_cons,
                List.sum_cons]
              rw [← Nat.add_assoc]
              exact h.1
            · have h2 := h.2
              simp only [List.take_succ_cons, List.map_cons, List.sum_cons]
              omega
      · rw [generateLoop_cons_threw total maxPer gen bn acc b rest m w hlt hp] at hi ⊢
        simp only [List.length_cons, List.length_nil] at hi
        have h0 : i = 0 := by omega
        subst h0
        refine ⟨by simp, by simpa using hlt⟩
      · rw [generateLoop_cons_stalled total maxPer gen bn acc b rest w hlt hp] at hi ⊢
        simp only [List.length_cons, List.length_nil] at hi
        have h0 : i = 0 := by omega
        subst h0
        refine ⟨by simp, by simpa using hlt⟩
    · rw [generateLoop_stop total maxPer gen bn (b :: rest) acc hlt] at hi
      simp at hi

/-! Theorems about the embedded program, one per claim. -/

/-- C1 counterexample: a terminal response that is done with zero usable video
uris (its one generatedVideos entry has no uri) does NOT make the batch fail:
no error is raised and the loop moves on, so the claim as stated is false. -/
theorem c1_counterexample :
    noUriOp.done = true ∧ extractUris noUriOp = [] ∧ batchEmpty noUriOp = false ∧
    (runGenerate [⟨noUriOp, []⟩]).outcome = RunOutcome.exhausted ∧
    ∀ m, (runGenerate [⟨noUriOp, []⟩]).outcome ≠ RunOutcome.error m := by
  refine ⟨rfl, rfl, rfl, rfl, ?_⟩
  intro m hm
  exact RunOutcome.noConfusion hm

/-- C1 (amended): a terminal poll response that is done with a missing or empty
generatedVideos list makes the batch fail: the run aborts with the
batch-indexed error and nothing is appended to the accumulated results.
(A response whose entries merely lack uris passes the check instead.) -/
theorem c1_empty_generated_videos_error (total maxPer gen bn : Nat) (acc : List String)
    (op : Operation) (evs : List PollEvent) (rest : List BatchScript)
    (hlt : gen < total) (hdone : op.done = true) (hemp : batchEmpty op = true) :
    generateLoop total maxPer (⟨op, evs⟩ :: rest) gen bn acc
      = ⟨RunOutcome.error ("Video generation batch " ++ toString bn
          ++ " failed to produce any videos."), acc, [min maxPer (total - gen)], [], [0]⟩ := by
  have hp : pollLoop evs ⟨op, 0, basePollDelayMs⟩
      = PollOutcome.finished ⟨op, 0, basePollDelayMs⟩ [] :=
    pollLoop_done evs ⟨op, 0, basePollDelayMs⟩ hdone
  exact generateLoop_cons_empty total maxPer gen bn acc ⟨op, evs⟩ rest
    ⟨op, 0, basePollDelayMs⟩ [] hlt hp hemp

/-- Witness for C1 (amended): a done operation with an empty generatedVideos
list aborts batch 1 of the source-constant run. -/
theorem c1_empty_generated_videos_error_witness :
    generateLoop 5 2 [⟨emptyDoneOp, []⟩] 0 1 []
      = ⟨RunOutcome.error "Video generation batch 1 failed to produce any videos.",
          [], [2], [], [0]⟩ := by
  have h := c1_empty_generated_videos_error 5 2 0 1 [] emptyDoneOp [] []
    (by decide) rfl (by decide)
  rw [h]
  decide

/-- C2 counterexample: a successful source-constant run in which batch 1
delivered only 1 of its 2 requested videos — the run does not abort, it just
issues further batches, so the claim as stated is false. -/
theorem c2_counterexample :
    (runGenerate [⟨doneOpWith ["a"], []⟩, ⟨doneOpWith ["b", "c"], []⟩,
        ⟨doneOpWith ["d", "e"], []⟩]).outcome = RunOutcome.ok ∧
    (runGenerate [⟨doneOpWith ["a"], []⟩, ⟨doneOpWith ["b", "c"], []⟩,
        ⟨doneOpWith ["d", "e"], []⟩]).requests = [2, 2, 2] ∧
    (runGenerate [⟨doneOpWith ["a"], []⟩, ⟨doneOpWith ["b", "c"], []⟩,
        ⟨doneOpWith ["d", "e"], []⟩]).batchUris.map List.length = [1, 2, 2] := by
  decide

/-- C2 (amended): a completed batch is rejected only when its generatedVideos
list is missing or empty; a batch with at least one entry is accepted even if
it yields fewer usable uris than requested, without aborting — the loop simply
continues, with the remaining need reduced by what was actually delivered. -/
theorem c2_short_batch_accepted (total maxPer gen bn : Nat) (acc : List String)
    (op : Operation) (evs : List PollEvent) (rest : List BatchScript)
    (hlt : gen < total) (hdone : op.done = true) (hne : batchEmpty op = false) :
    generateLoop total maxPer (⟨op, evs⟩ :: rest) gen bn acc
      = { outcome := (generateLoop total maxPer rest (gen + (extractUris op).length)
            (bn + 1) (acc ++ extractUris op)).outcome,
          acc := (generateLoop total maxPer rest (gen + (extractUris op).length)
            (bn + 1) (acc ++ extractUris op)).acc,
          requests := min maxPer (total - gen)
            :: (generateLoop total maxPer rest (gen + (extractUris op).length)
                (bn + 1) (acc ++ extractUris op)).requests,
          batchUris := extractUris op
            :: (generateLoop total maxPer rest (gen + (extractUris op).length)
                (bn + 1) (acc ++ extractUris op)).batchUris,
          pollsPerBatch := 0
            :: (generateLoop total maxPer rest (gen + (extractUris op).length)
                (bn + 1) (acc ++ extractUris op)).pollsPerBatch } := by
  have hp : pollLoop evs ⟨op, 0, basePollDelayMs⟩
      = PollOutcome.finished ⟨op, 0, basePollDelayMs⟩ [] :=
    pollLoop_done evs ⟨op, 0, basePollDelayMs⟩ hdone
  exact generateLoop_cons_accepted total maxPer gen bn acc ⟨op, evs⟩ rest
    ⟨op, 0, basePollDelayMs⟩ [] hlt hp hne

/-- Witness for C2 (amended): a batch delivering 1 of 2 requested uris is
accepted and the loop continues on the remaining need. -/
theorem c2_short_batch_accepted_witness :
    generateLoop 5 2 [⟨doneOpWith ["a"], []⟩] 0 1 []
      = ⟨RunOutcome.exhausted, ["a"], [2], [["a"]], [0]⟩ := by
  have h := c2_short_batch_accepted 5 2 0 1 [] (doneOpWith ["a"]) [] []
    (by decide) rfl (by decide)
  rw [h]
  decide

/-- C3 counterexample: a successful source-constant run (5 total, 2 per batch)
in which batch 1 over-delivered 3 uris: the run succeeds after two batches
with requested counts [2, 2], whose sum 4 is not totalCount 5, so the claim's
"sum of requestedCount equals totalCount over any completed successful run"
is false. -/
theorem c3_counterexample :
    (runGenerate [⟨doneOpWith ["a", "b", "c"], []⟩, ⟨doneOpWith ["d", "e"], []⟩]).outcome
        = RunOutcome.ok ∧
    (runGenerate [⟨doneOpWith ["a", "b", "c"], []⟩, ⟨doneOpWith ["d", "e"], []⟩]).requests
        = [2, 2] ∧
    (runGenerate [⟨doneOpWith ["a", "b", "c"], []⟩,
        ⟨doneOpWith ["d", "e"], []⟩]).requests.sum ≠ totalVideosToGenerate := by
  decide

/-- C3 (amended): every issued batch requests exactly
min(maxPerBatch, totalCount − deliveredSoFar) — deliveredSoFar being the
usable uris contributed by the batches accepted before it — so no request
exceeds the remaining need, none is zero and none exceeds maxPerBatch
(for maxPerBatch ≥ 1); and when every accepted batch delivers exactly its
requested count, the requested counts of a successful run sum to exactly
totalCount. -/
theorem c3_request_sizing_and_exact_sum (total maxPer : Nat) (scripts : List BatchScript)
    (hmax : 1 ≤ maxPer) :
    (∀ i, i < (generateLoop total maxPer scripts 0 1 []).requests.length →
      (generateLoop total maxPer scripts 0 1 []).requests[i]?
          = some (min maxPer (total
              - ((((generateLoop total maxPer scripts 0 1 []).batchUris.take i).map
                  List.length).sum))) ∧
      ((((generateLoop total maxPer scripts 0 1 []).batchUris.take i).map
          List.length).sum) < total ∧
      ∀ q, (generateLoop total maxPer scripts 0 1 []).requests[i]? = some q →
        q ≤ total - ((((generateLoop total maxPer scripts 0 1 []).batchUris.take i).map
            List.length).sum)) ∧
    (∀ q ∈ (generateLoop total maxPer scripts 0 1 []).requests, 1 ≤ q ∧ q ≤ maxPer) ∧
    ((generateLoop total maxPer scripts 0 1 []).batchUris.map List.length
        = (generateLoop total maxPer scripts 0 1 []).requests →
      (generateLoop total maxPer scripts 0 1 []).outcome = RunOutcome.ok →
      (generateLoop total maxPer scripts 0 1 []).requests.sum = total) := by
  refine ⟨?_, generateLoop_requests_bounds total maxPer hmax scripts 0 1 [], ?_⟩
  · intro i hi
    have h := generateLoop_request_formula total maxPer scripts 0 1 [] i hi
    have h1 : (generateLoop total maxPer scripts 0 1 []).requests[i]?
        = some (min maxPer (total
            - ((((generateLoop total maxPer scripts 0 1 []).batchUris.take i).map
                List.length).sum))) := by simpa using h.1
    refine ⟨h1, by simpa using h.2, ?_⟩
    intro q hq
    rw [h1] at hq
    have hq' : q = min maxPer (total
        - ((((generateLoop total maxPer scripts 0 1 []).batchUris.take i).map
            List.length).sum)) := by
      exact (Option.some.inj hq).symm
    rw [hq']
    exact min_le_right _ _
  · intro hexact hok
    have h := generateLoop_exact_sum total maxPer scripts 0 1 [] (Nat.zero_le total) hexact hok
    omega

/-- Witness for C3 (amended) on an exact-delivery run with batches [2, 2, 1]:
the third issued request is min(2, 5 − 4) and each request sizing, bounds and
the exact sum hold concretely. -/
theorem c3_request_sizing_and_exact_sum_witness :
    ((generateLoop 5 2 [⟨doneOpWith ["a", "b"], []⟩, ⟨doneOpWith ["c", "d"], []⟩,
        ⟨doneOpWith ["e"], []⟩] 0 1 []).requests[2]?
      = some (min 2 (5
          - ((((generateLoop 5 2 [⟨doneOpWith ["a", "b"], []⟩, ⟨doneOpWith ["c", "d"], []⟩,
              ⟨doneOpWith ["e"], []⟩] 0 1 []).batchUris.take 2).map List.length).sum)))) ∧
    (∀ q ∈ (generateLoop 5 2 [⟨doneOpWith ["a", "b"], []⟩, ⟨doneOpWith ["c", "d"], []⟩,
        ⟨doneOpWith ["e"], []⟩] 0 1 []).requests, 1 ≤ q ∧ q ≤ 2) ∧
    (generateLoop 5 2 [⟨doneOpWith ["a", "b"], []⟩, ⟨doneOpWith ["c", "d"], []⟩,
        ⟨doneOpWith ["e"], []⟩] 0 1 []).requests.sum = 5 := by
  have h := c3_request_sizing_and_exact_sum 5 2 [⟨doneOpWith ["a", "b"], []⟩,
    ⟨doneOpWith ["c", "d"], []⟩, ⟨doneOpWith ["e"], []⟩] (by decide)
  exact ⟨(h.1 2 (by decide)).1, h.2.1, h.2.2 (by decide) (by decide)⟩

/-- C7 counterexample: when batch 1 fails through a (non-rate-limit) polling
error, the run aborts with "Polling failed after 0 retries: boom", a message
that does not identify the batch index, so the claim's "an error identifying
that batch's index" is false as stated. -/
theorem c7_counterexample :
    (runGenerate [⟨pendingOp, [PollEvent.err "boom"]⟩]).outcome
        = RunOutcome.error "Polling failed after 0 retries: boom" ∧
    strHasPattern "Polling failed after 0 retries: boom" "batch 1" = false := by
  decide

/-- C7 (amended): a failed batch aborts the whole run at once — the
accumulated results at abort are exactly the uris of the previously accepted
batches, the failing batch is the last one issued, and no later scripted batch
is consumed; the empty-result abort names the batch index in its message
(a polling-failure abort does not).  In the spec scenario (5 total, 2 per
batch, batch 2 fails empty) only batch 1's two references are accumulated
and batch 3 is never issued. -/
theorem c7_abort_semantics :
    (∀ (total maxPer : Nat) (scripts : List BatchScript) (msg : String),
      (generateLoop total maxPer scripts 0 1 []).outcome = RunOutcome.error msg →
      (generateLoop total maxPer scripts 0 1 []).acc
          = (generateLoop total maxPer scripts 0 1 []).batchUris.flatten ∧
      (generateLoop total maxPer scripts 0 1 []).requests.length
          = (generateLoop total maxPer scripts 0 1 []).batchUris.length + 1 ∧
      (generateLoop total maxPer scripts 0 1 []).requests.length ≤ scripts.length) ∧
    (runGenerate [⟨doneOpWith ["u1", "u2"], []⟩, ⟨emptyDoneOp, []⟩,
        ⟨doneOpWith ["x", "y"], []⟩]
      = ⟨RunOutcome.error "Video generation batch 2 failed to produce any videos.",
          ["u1", "u2"], [2, 2], [["u1", "u2"]], [0, 0]⟩ ∧
     strHasPattern "Video generation batch 2 failed to produce any videos." "batch 2"
        = true) := by
  constructor
  · intro total maxPer scripts msg herr
    have h := generateLoop_error_spec total maxPer scripts 0 1 [] msg herr
    exact ⟨by simpa using h.1, h.2.1, h.2.2⟩
  · constructor
    · decide
    · decide

/-- Witness for C7 (amended), applying the abort invariant to the spec
scenario run. -/
theorem c7_abort_semantics_witness :
    (runGenerate [⟨doneOpWith ["u1", "u2"], []⟩, ⟨emptyDoneOp, []⟩,
        ⟨doneOpWith ["x", "y"], []⟩]).acc
      = (runGenerate [⟨doneOpWith ["u1", "u2"], []⟩, ⟨emptyDoneOp, []⟩,
          ⟨doneOpWith ["x", "y"], []⟩]).batchUris.flatten ∧
    (runGenerate [⟨doneOpWith ["u1", "u2"], []⟩, ⟨emptyDoneOp, []⟩,
        ⟨doneOpWith ["x", "y"], []⟩]).requests.length
      = (runGenerate [⟨doneOpWith ["u1", "u2"], []⟩, ⟨emptyDoneOp, []⟩,
          ⟨doneOpWith ["x", "y"], []⟩]).batchUris.length + 1 ∧
    (runGenerate [⟨doneOpWith ["u1", "u2"], []⟩, ⟨emptyDoneOp, []⟩,
        ⟨doneOpWith ["x", "y"], []⟩]).requests.length ≤ 3 :=
  c7_abort_semantics.1 totalVideosToGenerate maxVideosPerRequest
    [⟨doneOpWith ["u1", "u2"], []⟩, ⟨emptyDoneOp, []⟩, ⟨doneOpWith ["x", "y"], []⟩]
    "Video generation batch 2 failed to produce any videos." (by decide)

/-- C8: on every successful run of the batch loop, the accumulated uri list
reaches at least totalCount entries, and it is exactly the concatenation of
the accepted batches' uri lists in submission order (each batch's list in the
order returned by the remote service). -/
theorem c8_success_length_and_order (total maxPer : Nat) (scripts : List BatchScript)
    (h : (generateLoop total maxPer scripts 0 1 []).outcome = RunOutcome.ok) :
    total ≤ (generateLoop total maxPer scripts 0 1 []).acc.length ∧
    (generateLoop total maxPer scripts 0 1 []).acc
      = (generateLoop total maxPer scripts 0 1 []).batchUris.flatten := by
  have hh := generateLoop_ok_spec total maxPer scripts 0 1 [] (by simp) h
  exact ⟨hh.2, by simpa using hh.1⟩

/-- Witness for C8 on a concrete successful run with batch uri counts
[2, 2, 1]. -/
theorem c8_success_length_and_order_witness :
    5 ≤ (generateLoop 5 2 [⟨doneOpWith ["a", "b"], []⟩, ⟨doneOpWith ["c", "d"], []⟩,
        ⟨doneOpWith ["e"], []⟩] 0 1 []).acc.length ∧
    (generateLoop 5 2 [⟨doneOpWith ["a", "b"], []⟩, ⟨doneOpWith ["c", "d"], []⟩,
        ⟨doneOpWith ["e"], []⟩] 0 1 []).acc
      = (generateLoop 5 2 [⟨doneOpWith ["a", "b"], []⟩, ⟨doneOpWith ["c", "d"], []⟩,
          ⟨doneOpWith ["e"], []⟩] 0 1 []).batchUris.flatten :=
  c8_success_length_and_order 5 2 [⟨doneOpWith ["a", "b"], []⟩,
    ⟨doneOpWith ["c", "d"], []⟩, ⟨doneOpWith ["e"], []⟩] (by decide)

/-- C4: for a scripted run of N consecutive rate-limit poll failures (N ≤ 5,
so the retry budget is not exhausted) followed by a successful terminal poll,
starting from the 20000 ms base delay, the waits performed are
20000·2^0, 20000·2^1, ... capped at 60000 ms, and immediately after the
successful poll the retry count is 0 and the delay is back at the base. -/
theorem c4_backoff_doubles_and_resets (N : Nat) (h : N ≤ 5) :
    pollLoop (List.replicate N (PollEvent.err rlMsg) ++ [PollEvent.ok (doneOpWith ["u"])])
        ⟨pendingOp, 0, basePollDelayMs⟩
      = PollOutcome.finished ⟨doneOpWith ["u"], 0, basePollDelayMs⟩
          ((List.range (N + 1)).map fun k => min pollDelayCapMs (basePollDelayMs * 2 ^ k)) := by
  interval_cases N <;> decide

/-- Witness for C4 at N = 3. -/
theorem c4_backoff_doubles_and_resets_witness :
    pollLoop (List.replicate 3 (PollEvent.err rlMsg) ++ [PollEvent.ok (doneOpWith ["u"])])
        ⟨pendingOp, 0, basePollDelayMs⟩
      = PollOutcome.finished ⟨doneOpWith ["u"], 0, basePollDelayMs⟩
          ((List.range 4).map fun k => min pollDelayCapMs (basePollDelayMs * 2 ^ k)) :=
  c4_backoff_doubles_and_resets 3 (by decide)

/-- C5: with maxPollRetries = 5, a sixth consecutive rate-limit failure makes
the poll loop throw (after exactly six polls, i.e. never a sixth retry), with
whatever script remains untouched; and while budget remains, a rate-limit
failure only increments the retry count and doubles the capped delay, leaving
the operation handle unchanged and retrying. -/
theorem c5_budget_exhaustion_and_retry_step :
    (∀ rest : List PollEvent,
      pollLoop (List.replicate 6 (PollEvent.err rlMsg) ++ rest) ⟨pendingOp, 0, basePollDelayMs⟩
        = PollOutcome.threw ("Polling failed after 5 retries: " ++ rlMsg)
            [20000, 40000, 60000, 60000, 60000, 60000]) ∧
    (∀ (s : PollState) (msg : String) (rest : List PollEvent),
      s.op.done = false → isRateLimitMsg msg = true → s.pollRetries < maxPollRetries →
      pollLoop (PollEvent.err msg :: rest) s
        = addWait s.pollDelay
            (pollLoop rest ⟨s.op, s.pollRetries + 1, min pollDelayCapMs (s.pollDelay * 2)⟩)) := by
  constructor
  · intro rest
    rfl
  · intro s msg rest h1 h2 h3
    simp [pollLoop, h1, h2, h3]

/-- Witness for C5: six scripted rate-limit failures throw after six polls;
one in-budget rate-limit failure retries with the doubled, capped delay. -/
theorem c5_budget_exhaustion_and_retry_step_witness :
    pollLoop (List.replicate 6 (PollEvent.err rlMsg)) ⟨pendingOp, 0, basePollDelayMs⟩
      = PollOutcome.threw ("Polling failed after 5 retries: " ++ rlMsg)
          [20000, 40000, 60000, 60000, 60000, 60000] ∧
    pollLoop [PollEvent.err rlMsg] ⟨pendingOp, 0, basePollDelayMs⟩
      = addWait basePollDelayMs
          (pollLoop [] ⟨pendingOp, 1, min pollDelayCapMs (basePollDelayMs * 2)⟩) := by
  constructor
  · have h := c5_budget_exhaustion_and_retry_step.1 []
    simpa using h
  · exact c5_budget_exhaustion_and_retry_step.2 ⟨pendingOp, 0, basePollDelayMs⟩ rlMsg []
      rfl (by decide) (by decide)

/-- C6: a poll failure whose message is not classified as rate-limit (does not
contain "429" or "RESOURCE_EXHAUSTED") makes the poll loop throw on its first
occurrence, whatever the remaining retry budget. -/
theorem c6_non_rate_limit_failure_fatal (s : PollState) (msg : String) (rest : List PollEvent)
    (h1 : s.op.done = false) (h2 : isRateLimitMsg msg = false) :
    pollLoop (PollEvent.err msg :: rest) s
      = PollOutcome.threw
          ("Polling failed after " ++ toString s.pollRetries ++ " retries: " ++ msg)
          [s.pollDelay] := by
  simp [pollLoop, h1, h2]

/-- Witness for C6 at a state with untouched retry budget. -/
theorem c6_non_rate_limit_failure_fatal_witness :
    pollLoop [PollEvent.err "boom"] ⟨pendingOp, 0, basePollDelayMs⟩
      = PollOutcome.threw "Polling failed after 0 retries: boom" [basePollDelayMs] :=
  c6_non_rate_limit_failure_fatal ⟨pendingOp, 0, basePollDelayMs⟩ "boom" [] rfl (by decide)

/-- The rendered entry at position k of the delivery fan-out depends only on
the uri and fetch outcome at position k. -/
lemma deliverAll_at (us : List String) :
    ∀ (oks : List Bool) (start k : Nat),
      (deliverAll start us oks)[k]?
        = match us[k]?, oks[k]? with
          | some u, some okFlag => some (displayAndDownloadVideo okFlag u (start + k))
          | _, _ => none := by
  induction us with
  | nil =>
    intro oks start k
    cases oks <;> simp [deliverAll]
  | cons u us' ih =>
    intro oks start k
    cases oks with
    | nil =>
      rcases hk : (u :: us')[k]? with _ | v <;> simp [deliverAll, hk]
    | cons okFlag oks' =>
      cases k with
      | zero => simp [deliverAll]
      | succ k' =>
        have h := ih oks' (start + 1) k'
        have e : start + 1 + k' = start + (k' + 1) := by omega
        rw [e] at h
        simpa [deliverAll] using h

/-- C9: the run's reported outcome is independent of the per-item fetch
outcomes; each rendered entry depends only on its own uri and fetch outcome
(so one item's failure cannot affect a sibling); and concretely, with item 3
of 5 failing, items 1, 2, 4, 5 are still delivered and item 3 yields its own
error note. -/
theorem c9_per_item_isolation :
    (∀ (prompt : String) (scripts : List BatchScript) (f1 f2 : List Bool),
      reportedSuccess (generateVideos prompt scripts f1)
        = reportedSuccess (generateVideos prompt scripts f2)) ∧
    (∀ (us : List String) (oks : List Bool) (start k : Nat),
      (deliverAll start us oks)[k]?
        = match us[k]?, oks[k]? with
          | some u, some okFlag => some (displayAndDownloadVideo okFlag u (start + k))
          | _, _ => none) ∧
    deliverAll 1 ["u1", "u2", "u3", "u4", "u5"] [true, true, false, true, true]
      = [Rendered.videoItem 1 "u1", Rendered.videoItem 2 "u2", Rendered.errorItem 3,
         Rendered.videoItem 4 "u4", Rendered.videoItem 5 "u5"] := by
  refine ⟨?_, fun us oks start k => deliverAll_at us oks start k, by decide⟩
  intro prompt scripts f1 f2
  by_cases hp : prompt.isEmpty
  · simp [generateVideos, hp]
  · simp only [generateVideos, hp, Bool.false_eq_true, if_false]
    cases (runGenerate scripts).outcome <;> simp [reportedSuccess]

/-- C10: on the empty prompt, one click only raises the alert: the results
area is not cleared, no enhancement call, no batch submission and no poll
happen, and the run produces no result record. -/
theorem c10_empty_prompt_only_alerts :
    ∀ (scripts : List BatchScript) (fetchOks : List Bool),
      generateVideos "" scripts fetchOks = TopResult.alerted ∧
      generateVideosActions "" scripts = [Action.alert] ∧
      Action.enhanceCall ∉ generateVideosActions "" scripts ∧
      Action.pollCall ∉ generateVideosActions "" scripts ∧
      Action.clearResults ∉ generateVideosActions "" scripts ∧
      ∀ n, Action.submit n ∉ generateVideosActions "" scripts := by
  intro scripts fetchOks
  have he : ("" : String).isEmpty = true := rfl
  refine ⟨rfl, rfl, ?_, ?_, ?_, ?_⟩
  · simp [generateVideosActions, he]
  · simp [generateVideosActions, he]
  · simp [generateVideosActions, he]
  · intro n
    simp [generateVideosActions, he]

end Vid
